import Mathlib

/-!
Verification development for the Your-Pharma backend (pharmacy order
orchestration). The definitions below are shallow embeddings of the
Python source under `src/backend`; theorems settle the frozen claims
about the session/preview state machine, the order assembly pipeline,
the deterministic safety rule evaluator, the refill fallback, the
confirmation/cancellation handlers and the decision-router hand-off
chain in `main.chat`.
-/

namespace Pharma

/-! ## Python-dict style association maps

Embeds the process-wide Python dictionaries (`pending_previews`,
`session_contexts`, the parsed evidence map). Only lookup semantics
matter to the claims; a dict is an association list where `dset`
replaces any previous binding of the key. -/

def dget {α : Type} (d : List (String × α)) (k : String) : Option α :=
  (d.find? (fun p => p.1 == k)).map (fun p => p.2)

def dset {α : Type} (d : List (String × α)) (k : String) (v : α) : List (String × α) :=
  (k, v) :: d.filter (fun p => !(p.1 == k))

def ddel {α : Type} (d : List (String × α)) (k : String) : List (String × α) :=
  d.filter (fun p => !(p.1 == k))

def dmem {α : Type} (d : List (String × α)) (k : String) : Bool :=
  (dget d k).isSome

/-! ## Data model

Fields are the ones the embedded code reads. `models/schemas.py` is not
part of src/, so field types follow the spec data model (quantities and
stock levels are nonnegative integers, prices are exact rationals). -/

structure ExtractedEntity where
  medicine : String
  dosage : String
  quantity : Nat
  deriving Repr, DecidableEq

structure Medicine where
  medicine_id : String
  medicine_name : String
  strength : String
  stock_level : Nat
  max_quantity_per_order : Nat
  prescription_required : Bool
  controlled_substance : Bool
  discontinued : Bool
  deriving Repr, DecidableEq

inductive SafetyDecision where
  | APPROVE
  | CONDITIONAL
  | REJECT
  deriving Repr, DecidableEq

structure SafetyCheckResult where
  decision : SafetyDecision
  reasons : List String
  allowed_quantity : Option Nat
  requires_followup : Bool
  requires_prescription : Bool
  blocked_items : List String
  deriving Repr, DecidableEq

/-- Python truthiness of the `allowed_quantity` variable: `None` and `0`
are falsy, any other integer is truthy. The source tests this variable
with `if not allowed_quantity` and `elif requires_followup or
allowed_quantity`. -/
def truthyOpt : Option Nat → Bool
  | none => false
  | some n => n != 0

/-! ## Rule Evaluator: `SafetyAgent._perform_safety_checks`
(src/backend/agents/safety_agent.py lines 80-144) -/

/-- Mutable locals of the per-item loop in `_perform_safety_checks`. -/
structure SafetyState where
  reasons : List String
  blocked_items : List String
  requires_prescription : Bool
  allowed_quantity : Option Nat
  requires_followup : Bool
  deriving Repr, DecidableEq

def initialSafetyState : SafetyState :=
  { reasons := [], blocked_items := [], requires_prescription := false,
    allowed_quantity := none, requires_followup := false }

/-- `requested_qty = entity.quantity if entity and entity.quantity > 0 else 30`. -/
def requestedQty : Option ExtractedEntity → Nat
  | some e => if e.quantity > 0 then e.quantity else 30
  | none => 30

/-- One iteration of the `for i, medicine in enumerate(matched_medicines)`
loop body of `_perform_safety_checks` (safety_agent.py lines 88-123). -/
def checkMedicine (has_prescription : Bool) (st : SafetyState)
    (medicine : Medicine) (entity : Option ExtractedEntity) : SafetyState :=
  let requested_qty := requestedQty entity
  if medicine.discontinued then
    { st with
      blocked_items := st.blocked_items ++ [medicine.medicine_name],
      reasons := st.reasons ++
        [medicine.medicine_name ++ " has been discontinued and is no longer available."] }
  else
    let st :=
      if medicine.prescription_required then
        { st with
          requires_prescription := true,
          reasons :=
            if !has_prescription then
              st.reasons ++ [medicine.medicine_name ++ " requires a valid prescription."]
            else st.reasons }
      else st
    let st :=
      if medicine.controlled_substance then
        { st with
          reasons := st.reasons ++
            [medicine.medicine_name ++ " is a controlled substance. Special handling required."],
          requires_followup := true }
      else st
    if medicine.stock_level == 0 then
      { st with
        blocked_items := st.blocked_items ++ [medicine.medicine_name],
        reasons := st.reasons ++ [medicine.medicine_name ++ " is currently out of stock."] }
    else
      let st :=
        if medicine.stock_level < requested_qty then
          let aq := min medicine.stock_level medicine.max_quantity_per_order
          { st with
            allowed_quantity := some aq,
            reasons := st.reasons ++
              ["Limited stock available for " ++ medicine.medicine_name ++
               ". Maximum quantity: " ++ toString aq] }
        else st
      if requested_qty > medicine.max_quantity_per_order then
        let st :=
          if !(truthyOpt st.allowed_quantity) then
            { st with allowed_quantity := some medicine.max_quantity_per_order }
          else st
        { st with
          reasons := st.reasons ++
            ["Maximum quantity per order for " ++ medicine.medicine_name ++
             " is " ++ toString medicine.max_quantity_per_order] }
      else st

/-- Positional pairing of matched medicines with their originating
entities: `entities[i] if i < len(entities) else None`. -/
def pairWithEntities (entities : List ExtractedEntity) (matched : List Medicine) :
    List (Medicine × Option ExtractedEntity) :=
  (matched.enum).map (fun p => (p.2, entities.get? p.1))

/-- Decision aggregation at the end of `_perform_safety_checks`
(safety_agent.py lines 125-144). -/
def aggregateDecision (has_prescription : Bool) (matchedLen : Nat) (st : SafetyState) :
    SafetyCheckResult :=
  if !st.blocked_items.isEmpty && st.blocked_items.length == matchedLen then
    { decision := SafetyDecision.REJECT, reasons := st.reasons,
      allowed_quantity := st.allowed_quantity, requires_followup := st.requires_followup,
      requires_prescription := st.requires_prescription, blocked_items := st.blocked_items }
  else if !st.blocked_items.isEmpty || (st.requires_prescription && !has_prescription) then
    { decision := SafetyDecision.CONDITIONAL, reasons := st.reasons,
      allowed_quantity := st.allowed_quantity, requires_followup := st.requires_followup,
      requires_prescription := st.requires_prescription, blocked_items := st.blocked_items }
  else if st.requires_followup || truthyOpt st.allowed_quantity then
    { decision := SafetyDecision.CONDITIONAL, reasons := st.reasons,
      allowed_quantity := st.allowed_quantity, requires_followup := st.requires_followup,
      requires_prescription := st.requires_prescription, blocked_items := st.blocked_items }
  else
    { decision := SafetyDecision.APPROVE,
      reasons := if st.reasons.isEmpty then ["All safety checks passed."] else st.reasons,
      allowed_quantity := st.allowed_quantity, requires_followup := st.requires_followup,
      requires_prescription := st.requires_prescription, blocked_items := st.blocked_items }

/-- The loop state of `_perform_safety_checks` after all items have been
processed (the state handed to the decision aggregation). -/
def safetyFoldState (entities : List ExtractedEntity) (matched : List Medicine)
    (has_prescription : Bool) : SafetyState :=
  (pairWithEntities entities matched).foldl
    (fun st p => checkMedicine has_prescription st p.1 p.2) initialSafetyState

/-- `SafetyAgent._perform_safety_checks` (safety_agent.py lines 80-144):
loop over all matched medicines, then aggregate the decision. -/
def perform_safety_checks (entities : List ExtractedEntity) (matched : List Medicine)
    (has_prescription : Bool) : SafetyCheckResult :=
  aggregateDecision has_prescription matched.length
    (safetyFoldState entities matched has_prescription)

/-- A matched item ends up in `blocked_items` exactly when it is
discontinued or out of stock (both branches `continue` after blocking). -/
def isBlockedItem (m : Medicine) : Bool :=
  m.discontinued || m.stock_level == 0

/-! ## Order assembly: `OrchestratorAgent._handle_order` step 4
(src/backend/agents/orchestrator_agent.py lines 284-337) -/

structure OrderItem where
  medicine_id : String
  medicine_name : String
  strength : String
  quantity : Nat
  unit_price : ℚ
  prescription_required : Bool
  deriving Repr, DecidableEq

/-- The hard-coded price map of `_handle_order` (orchestrator_agent.py
lines 305-315); prices are exact rationals with two decimals. -/
def price_map : List (String × ℚ) :=
  [("Paracetamol", 15/100), ("Metformin", 20/100), ("Atorvastatin", 85/100),
   ("Lisinopril", 55/100), ("Amlodipine", 65/100), ("Omeprazole", 40/100),
   ("Amoxicillin", 35/100), ("Ibuprofen", 20/100), ("Aspirin", 10/100)]

/-- `price_map.get(item.medicine_name, 0.50)`. -/
def priceLookup (name : String) : ℚ :=
  ((price_map.find? (fun p => p.1 == name)).map (fun p => p.2)).getD (50/100)

/-- Quantity resolution in preview construction (orchestrator_agent.py
lines 292-294): default 30 when the entity quantity is 0, then
`min` with the safety cap when `allowed_quantity` is truthy. -/
def resolvedQuantity (e : ExtractedEntity) (allowed : Option Nat) : Nat :=
  let quantity := if e.quantity > 0 then e.quantity else 30
  if truthyOpt allowed then min quantity (allowed.getD 0) else quantity

/-- First item loop of preview construction (orchestrator_agent.py lines
289-302): pairs entities with matched medicines positionally
(`if i < len(matched_medicines)`), prices not yet assigned. -/
def buildOrderItems (entities : List ExtractedEntity) (matched : List Medicine)
    (safety : SafetyCheckResult) : List OrderItem :=
  (entities.zip matched).map (fun p =>
    { medicine_id := p.2.medicine_id, medicine_name := p.2.medicine_name,
      strength := p.2.strength,
      quantity := resolvedQuantity p.1 safety.allowed_quantity,
      unit_price := 0, prescription_required := p.2.prescription_required })

/-- Second item loop (orchestrator_agent.py lines 318-319): sets actual
unit prices from the price map. -/
def setPrices (items : List OrderItem) : List OrderItem :=
  items.map (fun it => { it with unit_price := priceLookup it.medicine_name })

/-- Rounding to 2 decimals as `round(subtotal, 2)`. On the exact
rationals produced by the pipeline the argument times 100 is an
integer, so every tie-breaking convention agrees. -/
def round2 (x : ℚ) : ℚ :=
  ((round (x * 100) : ℤ) : ℚ) / 100

structure OrderPreview where
  preview_id : String
  patient_id : String
  patient_name : String
  items : List OrderItem
  total_amount : ℚ
  safety_decision : SafetyDecision
  safety_reasons : List String
  requires_prescription : Bool
  deriving Repr, DecidableEq

/-- Preview construction of `_handle_order` (orchestrator_agent.py lines
286-333): build items, set prices, sum the subtotal, round to 2
decimals. -/
def buildOrderPreview (preview_id patient_id patient_name : String)
    (entities : List ExtractedEntity) (matched : List Medicine)
    (safety : SafetyCheckResult) : OrderPreview :=
  let items := setPrices (buildOrderItems entities matched safety)
  let subtotal := (items.map (fun it => it.unit_price * (it.quantity : ℚ))).sum
  { preview_id := preview_id, patient_id := patient_id, patient_name := patient_name,
    items := items, total_amount := round2 subtotal,
    safety_decision := safety.decision, safety_reasons := safety.reasons,
    requires_prescription := safety.requires_prescription }

/-! ## Session store: the orchestrator dictionaries
`pending_previews` and `session_contexts` -/

structure OrchestratorState where
  pending_previews : List (String × OrderPreview)
  session_contexts : List (String × String)
  deriving Repr, DecidableEq

def emptyOrchestratorState : OrchestratorState :=
  { pending_previews := [], session_contexts := [] }

/-- Storing a freshly built preview (orchestrator_agent.py lines
335-337): `self.pending_previews[preview_id] = preview` and
`self.session_contexts[session_id] = preview_id`. -/
def storePreview (st : OrchestratorState) (session_id : String) (preview : OrderPreview) :
    OrchestratorState :=
  { pending_previews := dset st.pending_previews preview.preview_id preview,
    session_contexts := dset st.session_contexts session_id preview.preview_id }

/-! ## Cancellation handler:
`OrchestratorAgent._handle_order_cancellation`
(orchestrator_agent.py lines 488-501) -/

def cancellationMessage : String :=
  "Your order has been cancelled. Is there anything else I can help you with?"

/-- `_handle_order_cancellation`: look up the pending preview id for the
session, delete the preview if the (truthy) id is present in
`pending_previews`, delete the session context entry if present, and
reply with a fixed message. -/
def handle_order_cancellation (st : OrchestratorState) (session_id : String) :
    OrchestratorState × String :=
  let preview_id := dget st.session_contexts session_id
  let st1 :=
    match preview_id with
    | some pid =>
      if pid != "" && dmem st.pending_previews pid then
        { st with pending_previews := ddel st.pending_previews pid }
      else st
    | none => st
  let st2 :=
    if dmem st1.session_contexts session_id then
      { st1 with session_contexts := ddel st1.session_contexts session_id }
    else st1
  (st2, cancellationMessage)

/-! ## Order lifecycle and the confirmation handler

The orchestrator confirmation path (orchestrator_agent.py lines
361-431) is in src/, but the order object it drives lives in
`fulfillment_agent.py`, which is not under src/; its primitives are
modelled from the spec (section 4.4). -/

inductive OrderStatus where
  | PENDING
  | VALIDATED
  | CONFIRMED
  | PROCESSING
  | PREPARING
  | SHIPPED
  | COMPLETED
  | CANCELLED
  deriving Repr, DecidableEq

/-- Position of a status in the ordered progression PENDING, VALIDATED,
CONFIRMED, PROCESSING, PREPARING, SHIPPED, COMPLETED; CANCELLED sits
outside the forward progression. -/
def statusRank : OrderStatus → Nat
  | .PENDING => 0
  | .VALIDATED => 1
  | .CONFIRMED => 2
  | .PROCESSING => 3
  | .PREPARING => 4
  | .SHIPPED => 5
  | .COMPLETED => 6
  | .CANCELLED => 7

/-- An entry of the append-only event log: a status transition carries
the new status, a side event carries none. -/
structure OrderEvent where
  status : Option OrderStatus
  note : String
  deriving Repr, DecidableEq

structure Order where
  order_id : String
  patient_id : String
  patient_name : String
  items : List OrderItem
  total_amount : ℚ
  status : OrderStatus
  events : List OrderEvent
  deriving Repr, DecidableEq

/-- Modelled from the spec: `fulfillment_agent.create_order` is not
under src/. Spec section 4.4: an order starts at PENDING on creation,
with the creation recorded on the append-only event log; items and
total are frozen from the confirming preview. -/
def create_order (order_id patient_id patient_name : String) (items : List OrderItem) :
    Order :=
  { order_id := order_id, patient_id := patient_id, patient_name := patient_name,
    items := items,
    total_amount := round2 ((items.map (fun it => it.unit_price * (it.quantity : ℚ))).sum),
    status := .PENDING,
    events := [{ status := some .PENDING, note := "Order created" }] }

/-- Modelled from the spec: `fulfillment_agent.update_order_status` is
not under src/. Spec section 4.4: each transition is recorded as an
event (status, note) appended to the event log, never overwritten. -/
def update_order_status (o : Order) (s : OrderStatus) (note : String) : Order :=
  { o with status := s, events := o.events ++ [{ status := some s, note := note }] }

/-- Modelled from the spec: the `fulfillment_agent.record_*` helpers
(safety validation, order confirmed, inventory updated, fulfillment
initiated) are not under src/. Spec section 4.4 records these as side
events on the log, not as statuses. -/
def record_side_event (o : Order) (note : String) : Order :=
  { o with events := o.events ++ [{ status := none, note := note }] }

/-- The transition sequence driven by
`OrchestratorAgent._handle_order_confirmation` (orchestrator_agent.py
lines 383-405): record safety validation, VALIDATED, record
confirmation, CONFIRMED, record inventory update (side event), record
fulfillment initiation, PROCESSING. -/
def confirmation_sequence (o : Order) (total_quantity : Nat) : Order :=
  let o := record_side_event o "Safety validation recorded"
  let o := update_order_status o .VALIDATED "Safety validation completed"
  let o := record_side_event o "Order confirmation recorded"
  let o := update_order_status o .CONFIRMED "Order confirmed by patient"
  let o := record_side_event o ("Inventory updated: " ++ toString total_quantity ++ " units")
  let o := record_side_event o "Fulfillment initiated"
  update_order_status o .PROCESSING "Order is being processed for delivery"

/-- An order as left by the confirmation handler: created from the
preview items, then taken through the confirmation sequence with the
total ordered quantity (orchestrator_agent.py lines 374-405). -/
def confirmed_order (order_id patient_id patient_name : String) (items : List OrderItem) :
    Order :=
  confirmation_sequence (create_order order_id patient_id patient_name items)
    ((items.map (fun it => it.quantity)).sum)

/-! ## Refill fallback: `RefillAgent._fallback_calculation`
(src/backend/agents/refill_agent.py lines 102-125)

Dates are modelled at day granularity as integer day numbers;
`datetime.now()` becomes the `now` parameter. -/

structure MedicationRecord where
  medicine_name : Option String
  supply_days : Option Nat
  purchase_date : Option Int
  deriving Repr, DecidableEq

structure RefillPrediction where
  medicine : String
  days_remaining : Int
  action : String
  confidence : ℚ
  reason : String
  deriving Repr, DecidableEq

/-- `RefillAgent._fallback_calculation`: entries without a purchase date
produce no prediction; otherwise days remaining is clamped at 0 and
the action is REMIND exactly when at most 5 days remain. -/
def fallback_calculation (now : Int) (history : List MedicationRecord) :
    List RefillPrediction :=
  history.filterMap (fun med =>
    match med.purchase_date with
    | none => none
    | some pd =>
      let days_supply : Int := (med.supply_days.getD 30 : Nat)
      let days_since : Int := now - pd
      let days_remaining : Int := max 0 (days_supply - days_since)
      some { medicine := med.medicine_name.getD "Unknown",
             days_remaining := days_remaining,
             action := if days_remaining ≤ 5 then "REMIND" else "NONE",
             confidence := 1,
             reason := "Deterministic calculation" })

/-! ## Decision router and hand-off chain: `main.chat`
(src/backend/main.py lines 100-244)

The reasoning-service collaborators (pharmacist, inventory, policy
agents) are opaque; the k-th collaborator invocation of a turn is
modelled as the k-th element of a decision stream. The loop is given
explicit fuel; a `none` result means the fuel ran out, so a stream on
which every fuel yields `none` makes the while loop run forever. -/

structure AgentDecision where
  agent : String
  decision : String
  reason : String
  message : Option String
  evidence : List String
  next_agent : Option String
  deriving Repr, DecidableEq

/-- The Python `str.strip()` builtin: remove leading and trailing
whitespace (character-list implementation, so proofs can evaluate it). -/
def pyStrip (s : String) : String :=
  ⟨((s.data.dropWhile Char.isWhitespace).reverse.dropWhile Char.isWhitespace).reverse⟩

/-- The Python `str.lower()` builtin on ASCII keys. -/
def pyLower (s : String) : String :=
  ⟨s.data.map Char.toLower⟩

/-- The Python `item.split(":", 1)` step of `parse_evidence`, combined
with the `":" in item` guard: `none` when the entry has no colon,
otherwise the parts before and after the first colon. -/
def splitFirstColon (s : String) : Option (String × String) :=
  match s.data.dropWhile (fun c => c != ':') with
  | [] => none
  | _ :: rest => some (⟨s.data.takeWhile (fun c => c != ':')⟩, ⟨rest⟩)

/-- `parse_evidence` (main.py lines 100-107): split each entry on the
first colon, lower-case and trim the key, trim the value; entries
without a colon are skipped; later entries override earlier ones. -/
def parse_evidence (evidence : List String) : List (String × String) :=
  evidence.foldl (fun result item =>
    match splitFirstColon item with
    | none => result
    | some (k, v) => dset result (pyLower (pyStrip k)) (pyStrip v)) []

/-- `extracted_data.update(parse_evidence(...))` (main.py line 161). -/
def dupdate (d : List (String × String)) (kvs : List (String × String)) :
    List (String × String) :=
  kvs.foldl (fun d kv => dset d kv.1 kv.2) d

/-- Python `or` on an optional message string: an absent or empty
message falls through to the alternative. -/
def pyStrOr (a : Option String) (b : String) : String :=
  match a with
  | some s => if s == "" then b else s
  | none => b

/-- Value of a digit list, for embedding the Python `int` builtin. -/
def digitsVal (l : List Char) : Nat :=
  l.foldl (fun n c => n * 10 + (c.toNat - 48)) 0

/-- The Python `int` builtin on a string: strips surrounding whitespace,
accepts an optional sign followed by at least one digit, and raises
`ValueError` (here: `none`) on anything else. -/
def pythonInt (s : String) : Option Int :=
  let t := (pyStrip s).data
  let sign : Int := match t with
    | '-' :: _ => -1
    | _ => 1
  let digits := match t with
    | '-' :: ds => ds
    | '+' :: ds => ds
    | ds => ds
  if !digits.isEmpty && digits.all Char.isDigit then
    some (sign * (digitsVal digits : Int))
  else none

/-- `value.replace("x", "")`: removes every occurrence of "x". -/
def stripX (s : String) : String :=
  ⟨s.data.filter (fun c => c != 'x')⟩

/-- Quantity consumption on the InventoryAgent and PolicyAgent dispatch
branches (main.py lines 153 and 166):
`int(extracted_data.get("quantity", "30").replace("x","")) if
"quantity" in extracted_data else 30`. A `none` result models the
`ValueError` raised by `int` on a non-numeric value. -/
def qty_inventory_policy_branch (data : List (String × String)) : Option Int :=
  if dmem data "quantity" then pythonInt (stripX ((dget data "quantity").getD "30"))
  else some 30

/-- Quantity consumption on the FulfillmentAgent dispatch branch
(main.py lines 186-187): strip "x", strip whitespace, and fall back to
1 unless the remainder is a nonempty digit string (`str.isdigit`). -/
def qty_fulfillment_branch (data : List (String × String)) : Int :=
  let qty_str := (pyStrip (stripX ((dget data "quantity").getD "1"))).data
  if !qty_str.isEmpty && qty_str.all Char.isDigit then (digitsVal qty_str : Int)
  else 1

/-- Outcome of a chat turn, keyed by the branch of `main.chat` that
produced the reply. `qtyValueError` is the uncaught `ValueError` of
`int()` surfacing as the endpoint error handler. -/
inductive ChatOutcome where
  | needsInfo (msg : String)
  | rejectedReply (msg : String)
  | inventoryRejected (reason : String)
  | policyRejected (reason : String)
  | refillStatus (msg : String)
  | orderPlaced (quantity : Int)
  | stockConfirmPrompt (med qty : String)
  | passthrough (reason : String)
  | qtyValueError
  deriving Repr, DecidableEq

/-- Code after the while loop (main.py lines 229-239): a merged map
holding "medicine" yields the stock-confirmation prompt with
`requires_confirmation`; otherwise the original decision reason is
echoed. -/
def postLoop (data : List (String × String)) (reason0 : String) : ChatOutcome :=
  if dmem data "medicine" then
    ChatOutcome.stockConfirmPrompt ((dget data "medicine").getD "")
      ((dget data "quantity").getD "30")
  else ChatOutcome.passthrough reason0

/-- Python truthiness of `current_decision.next_agent`: absent or empty
string ends the while loop. -/
def nextAgentName : Option String → Option String
  | some s => if s == "" then none else some s
  | none => none

/-- The `while current_decision.next_agent:` loop of `main.chat`
(main.py lines 146-227), with explicit fuel. `decisions k` is the
decision returned by the k-th collaborator invocation of the turn.
The InventoryAgent branch merges the new evidence into the map; the
PolicyAgent branch does not (main.py line 174). -/
def chatLoop (decisions : Nat → AgentDecision) :
    Nat → Nat → AgentDecision → List (String × String) → String → Option ChatOutcome
  | 0, _, _, _, _ => none
  | fuel + 1, k, current, data, reason0 =>
    match nextAgentName current.next_agent with
    | none => some (postLoop data reason0)
    | some name =>
      if name == "InventoryAgent" then
        match qty_inventory_policy_branch data with
        | none => some ChatOutcome.qtyValueError
        | some _ =>
          let nd := decisions k
          if nd.decision == "REJECTED" then some (ChatOutcome.inventoryRejected nd.reason)
          else chatLoop decisions fuel (k + 1) nd
            (dupdate data (parse_evidence nd.evidence)) reason0
      else if name == "PolicyAgent" then
        match qty_inventory_policy_branch data with
        | none => some ChatOutcome.qtyValueError
        | some _ =>
          let nd := decisions k
          if nd.decision == "REJECTED" then some (ChatOutcome.policyRejected nd.reason)
          else chatLoop decisions fuel (k + 1) nd data reason0
      else if name == "RefillPredictionAgent" then
        let nd := decisions k
        some (ChatOutcome.refillStatus (pyStrOr nd.message nd.reason))
      else if name == "FulfillmentAgent" then
        some (ChatOutcome.orderPlaced (qty_fulfillment_branch data))
      else
        some (postLoop data reason0)

/-- `main.chat` after intent classification (main.py lines 132-239):
terminal NEEDS_INFO and REJECTED decisions end the turn at once,
otherwise the evidence of the initial decision seeds the merged map
and the hand-off loop runs. -/
def chat_pipeline (decisions : Nat → AgentDecision) (fuel : Nat)
    (initial : AgentDecision) : Option ChatOutcome :=
  if initial.decision == "NEEDS_INFO" then
    some (ChatOutcome.needsInfo (pyStrOr initial.message initial.reason))
  else if initial.decision == "REJECTED" then
    some (ChatOutcome.rejectedReply (pyStrOr initial.message initial.reason))
  else
    chatLoop decisions fuel 0 initial (parse_evidence initial.evidence) initial.reason

/-- The chat turn terminates on a decision stream when some amount of
fuel suffices for the loop to return a reply. -/
def chatTerminates (decisions : Nat → AgentDecision) (initial : AgentDecision) : Prop :=
  ∃ fuel, (chat_pipeline decisions fuel initial).isSome

/-- A decision stream in which the inventory and policy collaborators
keep naming each other as `next_agent`, forever. -/
def pingpongDecision (k : Nat) : AgentDecision :=
  { agent := "agent", decision := "APPROVED", reason := "ok", message := none,
    evidence := [],
    next_agent := some (if k % 2 == 0 then "PolicyAgent" else "InventoryAgent") }

/-- An initial classification decision dispatching to the inventory
collaborator. -/
def pingpongStart : AgentDecision :=
  { agent := "PharmacistAgent", decision := "APPROVED", reason := "ok", message := none,
    evidence := [], next_agent := some "InventoryAgent" }

/-! ## Concrete sample inputs used by scenario conjuncts, witnesses and
counterexamples -/

def sampleEntity30 : ExtractedEntity := { medicine := "X", dosage := "", quantity := 30 }

/-- The scenario item of the spec: stock 10, max quantity 30. -/
def sampleMedStock10 : Medicine :=
  { medicine_id := "M1", medicine_name := "X", strength := "500mg", stock_level := 10,
    max_quantity_per_order := 30, prescription_required := false,
    controlled_substance := false, discontinued := false }

/-- A catalog item whose configured max quantity per order is 0: the
evaluator imposes the cap `allowed_quantity = 0`, which is falsy in
Python. -/
def sampleMedCapZero : Medicine :=
  { medicine_id := "M2", medicine_name := "Z", strength := "250mg", stock_level := 1,
    max_quantity_per_order := 0, prescription_required := false,
    controlled_substance := false, discontinued := false }

/-- A second item with ample stock and max quantity 25, processed after
`sampleMedCapZero` in the same evaluator run. -/
def sampleMedMax25 : Medicine :=
  { medicine_id := "M3", medicine_name := "B", strength := "10mg", stock_level := 100,
    max_quantity_per_order := 25, prescription_required := false,
    controlled_substance := false, discontinued := false }

def samplePreview (pid : String) : OrderPreview :=
  { preview_id := pid, patient_id := "P001", patient_name := "Pat",
    items := [], total_amount := 0, safety_decision := SafetyDecision.APPROVE,
    safety_reasons := [], requires_prescription := false }

/-! # Theorems

Helper lemmas first, then one theorem per claim (with its witness or
counterexample where required). -/

/-! ## Association map lemmas -/

theorem dget_dset_self {α : Type} (d : List (String × α)) (k : String) (v : α) :
    dget (dset d k v) k = some v := by
  simp [dget, dset, List.find?]

theorem find?_filter_ne {α : Type} (d : List (String × α)) (k k' : String) (h : k' ≠ k) :
    (d.filter (fun p => !(p.1 == k))).find? (fun p => p.1 == k') =
      d.find? (fun p => p.1 == k') := by
  have hkk : (k == k') = false := beq_eq_false_iff_ne.mpr (fun hc => h hc.symm)
  induction d with
  | nil => rfl
  | cons p rest ih =>
    by_cases hpk : p.1 = k
    · have h1 : (p.1 == k) = true := by simp [hpk]
      have h2 : (p.1 == k') = false :=
        beq_eq_false_iff_ne.mpr (by rw [hpk]; exact fun hc => h hc.symm)
      simp [List.filter_cons, List.find?_cons, h1, h2, ih]
    · have h1 : (p.1 == k) = false := beq_eq_false_iff_ne.mpr hpk
      by_cases hpk' : p.1 = k'
      · have h2 : (p.1 == k') = true := by simp [hpk']
        simp [List.filter_cons, List.find?_cons, h1, h2]
      · have h2 : (p.1 == k') = false := beq_eq_false_iff_ne.mpr hpk'
        simp [List.filter_cons, List.find?_cons, h1, h2, ih]

theorem dget_dset_ne {α : Type} (d : List (String × α)) (k k' : String) (v : α)
    (h : k' ≠ k) : dget (dset d k v) k' = dget d k' := by
  have hkk : (k == k') = false := beq_eq_false_iff_ne.mpr (fun hc => h hc.symm)
  simp [dget, dset, List.find?_cons, hkk, find?_filter_ne d k k' h]

theorem dget_ddel_self {α : Type} (d : List (String × α)) (k : String) :
    dget (ddel d k) k = none := by
  have : (d.filter (fun p => !(p.1 == k))).find? (fun p => p.1 == k) = none := by
    rw [List.find?_eq_none]
    intro x hx
    have := List.of_mem_filter hx
    simpa using this
  simp [dget, ddel, this]

/-! ## Rule Evaluator structural lemmas -/

theorem checkMedicine_blocked (hp : Bool) (st : SafetyState) (m : Medicine)
    (e : Option ExtractedEntity) :
    (checkMedicine hp st m e).blocked_items =
      st.blocked_items ++ (if isBlockedItem m then [m.medicine_name] else []) := by
  unfold checkMedicine isBlockedItem
  cases hd : m.discontinued <;> cases hs : m.stock_level == 0 <;>
    cases hpr : m.prescription_required <;> cases hc : m.controlled_substance <;>
      simp [hd, hs, hpr, hc] <;> split_ifs <;> simp

theorem checkMedicine_rp (hp : Bool) (st : SafetyState) (m : Medicine)
    (e : Option ExtractedEntity) :
    (checkMedicine hp st m e).requires_prescription =
      (st.requires_prescription || (!m.discontinued && m.prescription_required)) := by
  unfold checkMedicine
  cases hd : m.discontinued <;> cases hs : m.stock_level == 0 <;>
    cases hpr : m.prescription_required <;> cases hc : m.controlled_substance <;>
      simp [hd, hs, hpr, hc] <;> split_ifs <;> simp

theorem checkMedicine_rf (hp : Bool) (st : SafetyState) (m : Medicine)
    (e : Option ExtractedEntity) :
    (checkMedicine hp st m e).requires_followup =
      (st.requires_followup || (!m.discontinued && m.controlled_substance)) := by
  unfold checkMedicine
  cases hd : m.discontinued <;> cases hs : m.stock_level == 0 <;>
    cases hpr : m.prescription_required <;> cases hc : m.controlled_substance <;>
      simp [hd, hs, hpr, hc] <;> split_ifs <;> simp

theorem foldl_checkMedicine_blocked (hp : Bool)
    (pairs : List (Medicine × Option ExtractedEntity)) :
    ∀ st : SafetyState,
      ((pairs.foldl (fun st p => checkMedicine hp st p.1 p.2) st)).blocked_items =
        st.blocked_items ++
          (pairs.filter (fun p => isBlockedItem p.1)).map (fun p => p.1.medicine_name) := by
  induction pairs with
  | nil => intro st; simp
  | cons p ps ih =>
    intro st
    rw [List.foldl_cons, ih, checkMedicine_blocked]
    by_cases hb : isBlockedItem p.1 <;> simp [hb, List.filter_cons]

theorem foldl_checkMedicine_rp (hp : Bool)
    (pairs : List (Medicine × Option ExtractedEntity)) :
    ∀ st : SafetyState,
      ((pairs.foldl (fun st p => checkMedicine hp st p.1 p.2) st)).requires_prescription =
        (st.requires_prescription ||
          pairs.any (fun p => !p.1.discontinued && p.1.prescription_required)) := by
  induction pairs with
  | nil => intro st; simp
  | cons p ps ih =>
    intro st
    rw [List.foldl_cons, ih, checkMedicine_rp]
    simp [List.any_cons, Bool.or_assoc]

theorem foldl_checkMedicine_rf (hp : Bool)
    (pairs : List (Medicine × Option ExtractedEntity)) :
    ∀ st : SafetyState,
      ((pairs.foldl (fun st p => checkMedicine hp st p.1 p.2) st)).requires_followup =
        (st.requires_followup ||
          pairs.any (fun p => !p.1.discontinued && p.1.controlled_substance)) := by
  induction pairs with
  | nil => intro st; simp
  | cons p ps ih =>
    intro st
    rw [List.foldl_cons, ih, checkMedicine_rf]
    simp [List.any_cons, Bool.or_assoc]

theorem filter_fst_map_fst {α β γ : Type} (q : α → Bool) (g : α → γ)
    (l : List (α × β)) :
    (l.filter (fun p => q p.1)).map (fun p => g p.1) =
      ((l.map Prod.fst).filter q).map g := by
  induction l with
  | nil => rfl
  | cons p ps ih => by_cases hq : q p.1 <;> simp [List.filter_cons, hq, ih]

theorem pairWithEntities_map_fst (entities : List ExtractedEntity)
    (matched : List Medicine) :
    (pairWithEntities entities matched).map Prod.fst = matched := by
  unfold pairWithEntities
  rw [List.map_map]
  have : (Prod.fst ∘ fun p : Nat × Medicine => (p.2, entities.get? p.1)) = Prod.snd := rfl
  rw [this, List.enum_map_snd]

theorem any_fst {α β : Type} (h : α → Bool) (l : List (α × β)) :
    l.any (fun p => h p.1) = (l.map Prod.fst).any h := by
  induction l with
  | nil => rfl
  | cons p ps ih => simp [List.any_cons, ih]

theorem pairWithEntities_any (entities : List ExtractedEntity)
    (matched : List Medicine) (h : Medicine → Bool) :
    (pairWithEntities entities matched).any (fun p => h p.1) = matched.any h := by
  rw [any_fst, pairWithEntities_map_fst]

theorem safetyFoldState_blocked (entities : List ExtractedEntity)
    (matched : List Medicine) (hp : Bool) :
    (safetyFoldState entities matched hp).blocked_items =
      (matched.filter isBlockedItem).map (fun m => m.medicine_name) := by
  unfold safetyFoldState
  rw [foldl_checkMedicine_blocked]
  rw [show initialSafetyState.blocked_items = [] from rfl, List.nil_append]
  rw [filter_fst_map_fst, pairWithEntities_map_fst]

theorem safetyFoldState_rp (entities : List ExtractedEntity)
    (matched : List Medicine) (hp : Bool) :
    (safetyFoldState entities matched hp).requires_prescription =
      matched.any (fun m => !m.discontinued && m.prescription_required) := by
  unfold safetyFoldState
  rw [foldl_checkMedicine_rp]
  rw [show initialSafetyState.requires_prescription = false from rfl, Bool.false_or]
  exact pairWithEntities_any entities matched
    (fun m => !m.discontinued && m.prescription_required)

theorem safetyFoldState_rf (entities : List ExtractedEntity)
    (matched : List Medicine) (hp : Bool) :
    (safetyFoldState entities matched hp).requires_followup =
      matched.any (fun m => !m.discontinued && m.controlled_substance) := by
  unfold safetyFoldState
  rw [foldl_checkMedicine_rf]
  rw [show initialSafetyState.requires_followup = false from rfl, Bool.false_or]
  exact pairWithEntities_any entities matched
    (fun m => !m.discontinued && m.controlled_substance)

theorem length_filter_eq_iff_all {α : Type} (p : α → Bool) (l : List α) :
    (l.filter p).length = l.length ↔ ∀ a ∈ l, p a = true := by
  induction l with
  | nil => simp
  | cons a l ih =>
    by_cases h : p a = true
    · simp [List.filter_cons, h, ih]
    · simp only [List.filter_cons, h]
      constructor
      · intro hlen
        exfalso
        have hle := List.length_filter_le p l
        simp only [Bool.false_eq_true, if_false, List.length_cons] at hlen
        omega
      · intro hall
        exact absurd (hall a (by simp)) h

theorem truthyOpt_iff (o : Option Nat) :
    truthyOpt o = true ↔ ∃ n, o = some n ∧ n ≠ 0 := by
  cases o <;> simp [truthyOpt]

theorem aggregateDecision_blocked (hp : Bool) (n : Nat) (st : SafetyState) :
    (aggregateDecision hp n st).blocked_items = st.blocked_items := by
  unfold aggregateDecision; split_ifs <;> rfl

theorem aggregateDecision_allowed (hp : Bool) (n : Nat) (st : SafetyState) :
    (aggregateDecision hp n st).allowed_quantity = st.allowed_quantity := by
  unfold aggregateDecision; split_ifs <;> rfl

theorem aggregateDecision_rp (hp : Bool) (n : Nat) (st : SafetyState) :
    (aggregateDecision hp n st).requires_prescription = st.requires_prescription := by
  unfold aggregateDecision; split_ifs <;> rfl

theorem aggregateDecision_rf (hp : Bool) (n : Nat) (st : SafetyState) :
    (aggregateDecision hp n st).requires_followup = st.requires_followup := by
  unfold aggregateDecision; split_ifs <;> rfl

theorem aggregateDecision_decision_bool (hp : Bool) (n : Nat) (st : SafetyState) :
    ((aggregateDecision hp n st).decision = SafetyDecision.REJECT ↔
      (!st.blocked_items.isEmpty && st.blocked_items.length == n) = true) ∧
    ((aggregateDecision hp n st).decision = SafetyDecision.CONDITIONAL ↔
      ((!st.blocked_items.isEmpty && st.blocked_items.length == n) = false ∧
       ((!st.blocked_items.isEmpty || (st.requires_prescription && !hp)) = true ∨
        (st.requires_followup || truthyOpt st.allowed_quantity) = true))) ∧
    ((aggregateDecision hp n st).decision = SafetyDecision.APPROVE ↔
      ((!st.blocked_items.isEmpty && st.blocked_items.length == n) = false ∧
       (!st.blocked_items.isEmpty || (st.requires_prescription && !hp)) = false ∧
       (st.requires_followup || truthyOpt st.allowed_quantity) = false)) := by
  unfold aggregateDecision
  split_ifs with h1 h2 h3
  · exact ⟨by simp [h1], by simp [h1], by simp [h1]⟩
  · have h1b : (!st.blocked_items.isEmpty && st.blocked_items.length == n) = false := by
      simpa using h1
    exact ⟨by simp [h1b], by simp [h1b, h2], by simp [h2]⟩
  · have h1b : (!st.blocked_items.isEmpty && st.blocked_items.length == n) = false := by
      simpa using h1
    have h2b : (!st.blocked_items.isEmpty ||
        (st.requires_prescription && !hp)) = false := by simpa using h2
    exact ⟨by simp [h1b], by simp [h1b, h3], by simp [h3]⟩
  all_goals
    have h1b : (!st.blocked_items.isEmpty && st.blocked_items.length == n) = false := by
      simpa using h1
    have h2b : (!st.blocked_items.isEmpty ||
        (st.requires_prescription && !hp)) = false := by simpa using h2
    have h3b : (st.requires_followup || truthyOpt st.allowed_quantity) = false := by
      simpa using h3
    exact ⟨by simp [h1b], by simp [h1b, h2b, h3b], by simp [h1b, h2b, h3b]⟩

theorem aggregateDecision_decision (hp : Bool) (n : Nat) (st : SafetyState) :
    ((aggregateDecision hp n st).decision = SafetyDecision.REJECT ↔
      (st.blocked_items ≠ [] ∧ st.blocked_items.length = n)) ∧
    ((aggregateDecision hp n st).decision = SafetyDecision.CONDITIONAL ↔
      (¬(st.blocked_items ≠ [] ∧ st.blocked_items.length = n) ∧
        (st.blocked_items ≠ [] ∨ (st.requires_prescription = true ∧ hp = false) ∨
         st.requires_followup = true ∨ truthyOpt st.allowed_quantity = true))) ∧
    ((aggregateDecision hp n st).decision = SafetyDecision.APPROVE ↔
      (¬(st.blocked_items ≠ [] ∧ st.blocked_items.length = n) ∧
        ¬(st.blocked_items ≠ [] ∨ (st.requires_prescription = true ∧ hp = false) ∨
          st.requires_followup = true ∨ truthyOpt st.allowed_quantity = true))) := by
  obtain ⟨j1, j2, j3⟩ := aggregateDecision_decision_bool hp n st
  refine ⟨?_, ?_, ?_⟩
  · rw [j1]
    simp [List.isEmpty_iff]
  · rw [j2]
    simp [List.isEmpty_iff, or_assoc]
  · rw [j3]
    simp [List.isEmpty_iff]
    tauto

theorem aggregateDecision_reasons (hp : Bool) (n : Nat) (st : SafetyState) :
    (aggregateDecision hp n st).decision = SafetyDecision.APPROVE →
      ((st.reasons = [] →
          (aggregateDecision hp n st).reasons = ["All safety checks passed."]) ∧
       (st.reasons ≠ [] → (aggregateDecision hp n st).reasons = st.reasons)) := by
  unfold aggregateDecision
  split_ifs <;> intro hd <;> simp_all [List.isEmpty_iff]

/-- C3 (amended: the cap disjunct requires a nonzero cap, matching the
Python truthiness test `elif requires_followup or allowed_quantity`).
For every non-empty list of matched medicines, paired positionally with
entities and defaulting a missing quantity to 30, the aggregated
decision is REJECT exactly when every matched item ended up in
blocked_items; CONDITIONAL exactly when not REJECT and either some item
is blocked, or a prescription is required without one on file, or
follow-up is required, or a nonzero allowed_quantity cap was imposed;
and on APPROVE the reasons default to "All safety checks passed." when
none accumulated. -/
theorem c3_rule_evaluator_decision_aggregation
    (entities : List ExtractedEntity) (matched : List Medicine) (hp : Bool)
    (hne : matched ≠ []) :
    ((perform_safety_checks entities matched hp).decision = SafetyDecision.REJECT ↔
      ∀ m ∈ matched, isBlockedItem m = true) ∧
    ((perform_safety_checks entities matched hp).decision = SafetyDecision.CONDITIONAL ↔
      (¬(∀ m ∈ matched, isBlockedItem m = true) ∧
        ((∃ m ∈ matched, isBlockedItem m = true) ∨
         (matched.any (fun m => !m.discontinued && m.prescription_required) = true ∧
           hp = false) ∨
         matched.any (fun m => !m.discontinued && m.controlled_substance) = true ∨
         (∃ q, (perform_safety_checks entities matched hp).allowed_quantity = some q ∧
           q ≠ 0)))) ∧
    ((perform_safety_checks entities matched hp).decision = SafetyDecision.APPROVE →
      (((safetyFoldState entities matched hp).reasons = [] →
         (perform_safety_checks entities matched hp).reasons =
           ["All safety checks passed."]) ∧
       ((safetyFoldState entities matched hp).reasons ≠ [] →
         (perform_safety_checks entities matched hp).reasons =
           (safetyFoldState entities matched hp).reasons))) := by
  unfold perform_safety_checks
  have hb := safetyFoldState_blocked entities matched hp
  have hrp := safetyFoldState_rp entities matched hp
  have hrf := safetyFoldState_rf entities matched hp
  obtain ⟨j1, j2, j3⟩ :=
    aggregateDecision_decision hp matched.length (safetyFoldState entities matched hp)
  have c_all : ((safetyFoldState entities matched hp).blocked_items ≠ [] ∧
      (safetyFoldState entities matched hp).blocked_items.length = matched.length) ↔
      ∀ m ∈ matched, isBlockedItem m = true := by
    rw [hb]
    constructor
    · rintro ⟨_, hlen⟩
      rw [List.length_map] at hlen
      exact (length_filter_eq_iff_all _ _).mp hlen
    · intro hall
      refine ⟨?_, ?_⟩
      · simp only [ne_eq, List.map_eq_nil_iff, List.filter_eq_nil_iff]
        intro hnone
        rcases List.exists_mem_of_ne_nil matched hne with ⟨m, hm⟩
        exact hnone m hm (hall m hm)
      · rw [List.length_map]
        exact (length_filter_eq_iff_all _ _).mpr hall
  have c_ex : (safetyFoldState entities matched hp).blocked_items ≠ [] ↔
      ∃ m ∈ matched, isBlockedItem m = true := by
    rw [hb]
    simp only [ne_eq, List.map_eq_nil_iff, List.filter_eq_nil_iff]
    push_neg
    simp
  have c_aq := truthyOpt_iff (safetyFoldState entities matched hp).allowed_quantity
  refine ⟨?_, ?_, ?_⟩
  · rw [j1, c_all]
  · rw [j2, c_all, c_ex, hrp, hrf, c_aq,
      aggregateDecision_allowed hp matched.length (safetyFoldState entities matched hp)]
  · intro hA
    exact aggregateDecision_reasons hp matched.length
      (safetyFoldState entities matched hp) hA

/-- C3 witness: the CONDITIONAL characterization applied to the concrete
stock-limited scenario item. -/
theorem c3_witness :
    ([sampleMedStock10] : List Medicine) ≠ [] ∧
    ((perform_safety_checks [sampleEntity30] [sampleMedStock10] false).decision =
        SafetyDecision.CONDITIONAL ↔
      (¬(∀ m ∈ [sampleMedStock10], isBlockedItem m = true) ∧
        ((∃ m ∈ [sampleMedStock10], isBlockedItem m = true) ∨
         ([sampleMedStock10].any
             (fun m => !m.discontinued && m.prescription_required) = true ∧
           false = false) ∨
         [sampleMedStock10].any
             (fun m => !m.discontinued && m.controlled_substance) = true ∨
         (∃ q, (perform_safety_checks [sampleEntity30] [sampleMedStock10]
             false).allowed_quantity = some q ∧ q ≠ 0)))) :=
  ⟨by decide,
   (c3_rule_evaluator_decision_aggregation [sampleEntity30] [sampleMedStock10] false
     (by decide)).2.1⟩

/-- C3 counterexample: with a catalog item configured with
max_quantity_per_order = 0 and stock 1, the evaluator imposes the cap
allowed_quantity = 0, blocks nothing, and still returns APPROVE, not
CONDITIONAL as the claim states, because 0 is falsy in Python. -/
theorem c3_counterexample :
    (perform_safety_checks [sampleEntity30] [sampleMedCapZero] false).allowed_quantity =
      some 0 ∧
    (perform_safety_checks [sampleEntity30] [sampleMedCapZero] false).blocked_items = [] ∧
    (perform_safety_checks [sampleEntity30] [sampleMedCapZero] false).decision =
      SafetyDecision.APPROVE ∧
    (perform_safety_checks [sampleEntity30] [sampleMedCapZero] false).decision ≠
      SafetyDecision.CONDITIONAL := by
  refine ⟨rfl, rfl, rfl, by decide⟩

/-- C4 (amended: "no cap was set yet" means no nonzero cap was set,
matching the truthiness test `if not allowed_quantity`). For an item
that is not discontinued and has stock above zero: when stock is below
the requested quantity the evaluator sets
allowed_quantity = min(stock_level, max_quantity_per_order) and adds a
reason; when the requested quantity exceeds max_quantity_per_order it
sets allowed_quantity = max_quantity_per_order only if no nonzero cap
was set yet, and adds a reason; and the stock 10 / requested 30 / max
30 scenario yields CONDITIONAL with allowed_quantity = 10 and a reason
mentioning the cap. -/
theorem c4_stock_and_max_quantity_caps :
    (∀ (hp : Bool) (st : SafetyState) (m : Medicine) (e : Option ExtractedEntity),
      m.discontinued = false → 0 < m.stock_level →
      m.stock_level < requestedQty e →
        (checkMedicine hp st m e).allowed_quantity =
          some (min m.stock_level m.max_quantity_per_order) ∧
        st.reasons.length < (checkMedicine hp st m e).reasons.length) ∧
    (∀ (hp : Bool) (st : SafetyState) (m : Medicine) (e : Option ExtractedEntity),
      m.discontinued = false → 0 < m.stock_level →
      ¬(m.stock_level < requestedQty e) → requestedQty e > m.max_quantity_per_order →
        (truthyOpt st.allowed_quantity = false →
          (checkMedicine hp st m e).allowed_quantity = some m.max_quantity_per_order ∧
          st.reasons.length < (checkMedicine hp st m e).reasons.length) ∧
        (truthyOpt st.allowed_quantity = true →
          (checkMedicine hp st m e).allowed_quantity = st.allowed_quantity)) ∧
    ((perform_safety_checks [sampleEntity30] [sampleMedStock10] false).decision =
        SafetyDecision.CONDITIONAL ∧
      (perform_safety_checks [sampleEntity30] [sampleMedStock10] false).allowed_quantity =
        some 10 ∧
      "Limited stock available for X. Maximum quantity: 10" ∈
        (perform_safety_checks [sampleEntity30] [sampleMedStock10] false).reasons) := by
  refine ⟨?_, ?_, rfl, rfl, by decide⟩
  · intro hp st m e hd hstock hlt
    have hs0 : (m.stock_level == 0) = false := by simp; omega
    unfold checkMedicine
    simp only [hd, Bool.false_eq_true, if_false, hs0, hlt, if_true]
    split_ifs <;> refine ⟨?_, ?_⟩ <;> simp_all [truthyOpt]
  · intro hp st m e hd hstock hnlt hgt
    have hs0 : (m.stock_level == 0) = false := by simp; omega
    unfold checkMedicine
    simp only [hd, Bool.false_eq_true, if_false, hs0, hnlt, hgt, if_true]
    constructor
    · intro htr
      split_ifs <;> refine ⟨?_, ?_⟩ <;> simp_all [truthyOpt]
    · intro htr
      split_ifs <;> simp_all [truthyOpt]

/-- C4 witness: the stock-cap branch applied to the concrete scenario
item. -/
theorem c4_witness :
    sampleMedStock10.discontinued = false ∧ 0 < sampleMedStock10.stock_level ∧
    sampleMedStock10.stock_level < requestedQty (some sampleEntity30) ∧
    ((checkMedicine false initialSafetyState sampleMedStock10
        (some sampleEntity30)).allowed_quantity =
      some (min sampleMedStock10.stock_level sampleMedStock10.max_quantity_per_order) ∧
     initialSafetyState.reasons.length <
      (checkMedicine false initialSafetyState sampleMedStock10
        (some sampleEntity30)).reasons.length) :=
  ⟨rfl, by decide, by decide,
   c4_stock_and_max_quantity_caps.1 false initialSafetyState sampleMedStock10
     (some sampleEntity30) rfl (by decide) (by decide)⟩

/-- C4 counterexample: the first item (max quantity 0) sets the cap
allowed_quantity = 0; on the second item the max-quantity branch still
overwrites the cap with 25, although a cap was already set, because 0
is falsy in `if not allowed_quantity`. -/
theorem c4_counterexample :
    (checkMedicine false initialSafetyState sampleMedCapZero
        (some sampleEntity30)).allowed_quantity = some 0 ∧
    (checkMedicine false
        (checkMedicine false initialSafetyState sampleMedCapZero (some sampleEntity30))
        sampleMedMax25 (some sampleEntity30)).allowed_quantity = some 25 ∧
    requestedQty (some sampleEntity30) > sampleMedMax25.max_quantity_per_order ∧
    some 25 ≠ some 0 ∧
    (perform_safety_checks [sampleEntity30, sampleEntity30]
        [sampleMedCapZero, sampleMedMax25] false).allowed_quantity = some 25 := by
  refine ⟨rfl, rfl, by decide, by decide, rfl⟩

/-- C6 (amended: only a nonzero allowed_quantity cap is applied; a cap
of 0 is falsy and leaves the requested quantity unchanged). The
resolved quantity defaults to 30 when the requested quantity is 0, is
capped by min with a nonzero evaluator cap, and the quantities of the
built preview items are exactly the per-entity resolved quantities. -/
theorem c6_preview_quantity_resolution :
    (∀ e : ExtractedEntity, e.quantity > 0 → resolvedQuantity e none = e.quantity) ∧
    (∀ e : ExtractedEntity, e.quantity = 0 → resolvedQuantity e none = 30) ∧
    (∀ (e : ExtractedEntity) (c : Nat), c ≠ 0 → e.quantity > 0 →
      resolvedQuantity e (some c) = min e.quantity c) ∧
    (∀ (e : ExtractedEntity) (c : Nat), c ≠ 0 → e.quantity = 0 →
      resolvedQuantity e (some c) = min 30 c) ∧
    (∀ (entities : List ExtractedEntity) (matched : List Medicine)
        (safety : SafetyCheckResult) (pid patid pname : String),
      ((buildOrderPreview pid patid pname entities matched safety).items).map
          (fun it => it.quantity) =
        (entities.zip matched).map
          (fun p => resolvedQuantity p.1 safety.allowed_quantity)) := by
  refine ⟨?_, ?_, ?_, ?_, ?_⟩
  · intro e h; simp [resolvedQuantity, truthyOpt, h]
  · intro e h; simp [resolvedQuantity, truthyOpt, h]
  · intro e c hc h; simp [resolvedQuantity, truthyOpt, hc, h]
  · intro e c hc h; simp [resolvedQuantity, truthyOpt, hc, h]
  · intro entities matched safety pid patid pname
    simp [buildOrderPreview, setPrices, buildOrderItems, List.map_map]

/-- C6 witness: a nonzero cap of 10 caps the requested 30 to 10. -/
theorem c6_witness :
    (10 : Nat) ≠ 0 ∧ sampleEntity30.quantity > 0 ∧
    resolvedQuantity sampleEntity30 (some 10) = min sampleEntity30.quantity 10 :=
  ⟨by decide, by decide,
   c6_preview_quantity_resolution.2.2.1 sampleEntity30 10 (by decide) (by decide)⟩

/-- C6 counterexample: the evaluator produced the cap
allowed_quantity = 0, but preview construction leaves a requested
quantity of 5 uncapped (the claim demands min(5, 0) = 0), because 0 is
falsy in `if safety_result.allowed_quantity`. -/
theorem c6_counterexample :
    (perform_safety_checks [sampleEntity30] [sampleMedCapZero] false).allowed_quantity =
      some 0 ∧
    resolvedQuantity { medicine := "X", dosage := "", quantity := 5 }
      (perform_safety_checks [sampleEntity30] [sampleMedCapZero]
        false).allowed_quantity = 5 ∧
    (5 : Nat) ≠ min 5 0 := by
  refine ⟨rfl, rfl, by decide⟩

/-- C1: starting a second order in the same session replaces the
pending pointer, so exactly the new preview id is retrievable as the
pending preview of the session, while the superseded preview object
remains in the preview store. -/
theorem c1_at_most_one_pending_preview (st : OrchestratorState) (session_id : String)
    (pv1 pv2 : OrderPreview) (h : pv1.preview_id ≠ pv2.preview_id) :
    dget (storePreview (storePreview st session_id pv1) session_id
        pv2).session_contexts session_id = some pv2.preview_id ∧
    dget (storePreview (storePreview st session_id pv1) session_id
        pv2).session_contexts session_id ≠ some pv1.preview_id ∧
    dget (storePreview (storePreview st session_id pv1) session_id
        pv2).pending_previews pv2.preview_id = some pv2 ∧
    dget (storePreview (storePreview st session_id pv1) session_id
        pv2).pending_previews pv1.preview_id = some pv1 := by
  unfold storePreview
  refine ⟨dget_dset_self _ _ _, ?_, dget_dset_self _ _ _, ?_⟩
  · rw [dget_dset_self]
    intro hc
    exact h (Option.some_injective _ hc).symm
  · rw [dget_dset_ne _ _ _ _ h, dget_dset_self]

/-- C1 witness: two concrete previews stored in sequence from the empty
state. -/
theorem c1_witness :
    (samplePreview "PRV-1").preview_id ≠ (samplePreview "PRV-2").preview_id ∧
    (dget (storePreview (storePreview emptyOrchestratorState "s1"
          (samplePreview "PRV-1")) "s1" (samplePreview "PRV-2")).session_contexts "s1" =
        some (samplePreview "PRV-2").preview_id ∧
      dget (storePreview (storePreview emptyOrchestratorState "s1"
          (samplePreview "PRV-1")) "s1" (samplePreview "PRV-2")).pending_previews
          (samplePreview "PRV-1").preview_id = some (samplePreview "PRV-1")) :=
  ⟨by decide,
   (c1_at_most_one_pending_preview emptyOrchestratorState "s1"
      (samplePreview "PRV-1") (samplePreview "PRV-2") (by decide)).1,
   (c1_at_most_one_pending_preview emptyOrchestratorState "s1"
      (samplePreview "PRV-1") (samplePreview "PRV-2") (by decide)).2.2.2⟩

/-- Every price of the hard-coded price table, default included, is an
integer number of cents. -/
theorem priceLookup_cents (name : String) :
    ∃ z : ℤ, priceLookup name * 100 = (z : ℚ) := by
  unfold priceLookup
  cases h : price_map.find? (fun p => p.1 == name) with
  | none => exact ⟨50, by norm_num⟩
  | some p =>
    have hm := List.mem_of_find?_eq_some h
    simp only [Option.map_some', Option.getD_some]
    fin_cases hm
    · exact ⟨15, by norm_num⟩
    · exact ⟨20, by norm_num⟩
    · exact ⟨85, by norm_num⟩
    · exact ⟨55, by norm_num⟩
    · exact ⟨65, by norm_num⟩
    · exact ⟨40, by norm_num⟩
    · exact ⟨35, by norm_num⟩
    · exact ⟨20, by norm_num⟩
    · exact ⟨10, by norm_num⟩

/-- A sum of line totals whose unit prices are integer cents is itself
an integer number of cents. -/
theorem sum_line_totals_cents (l : List OrderItem)
    (h : ∀ it ∈ l, ∃ z : ℤ, it.unit_price * 100 = (z : ℚ)) :
    ∃ z : ℤ, ((l.map (fun it => it.unit_price * (it.quantity : ℚ))).sum) * 100 =
      (z : ℚ) := by
  induction l with
  | nil => exact ⟨0, by simp⟩
  | cons a l ih =>
    obtain ⟨z1, hz1⟩ := h a (by simp)
    obtain ⟨z2, hz2⟩ := ih (fun it hit => h it (by simp [hit]))
    refine ⟨z1 * a.quantity + z2, ?_⟩
    simp only [List.map_cons, List.sum_cons, add_mul]
    rw [show a.unit_price * (a.quantity : ℚ) * 100 =
      (a.unit_price * 100) * (a.quantity : ℚ) by ring, hz1, hz2]
    push_cast
    ring

/-- Rounding to 2 decimals is the identity on an exact number of
cents. -/
theorem round2_eq_self (x : ℚ) (z : ℤ) (h : x * 100 = (z : ℚ)) : round2 x = x := by
  unfold round2
  rw [h, round_intCast, eq_comm, eq_div_iff (by norm_num : (100 : ℚ) ≠ 0)]
  exact h

/-- C5: for every preview built by the order assembly pipeline,
total_amount is the 2-decimal rounding of the sum of unit price times
quantity over its items, and that rounding is exact (prices are integer
cents), so total_amount equals the sum itself. -/
theorem c5_total_amount_round_trip (pid patid pname : String)
    (entities : List ExtractedEntity) (matched : List Medicine)
    (safety : SafetyCheckResult) :
    (buildOrderPreview pid patid pname entities matched safety).total_amount =
      round2 (((buildOrderPreview pid patid pname entities matched safety).items.map
        (fun it => it.unit_price * (it.quantity : ℚ))).sum) ∧
    (buildOrderPreview pid patid pname entities matched safety).total_amount =
      ((buildOrderPreview pid patid pname entities matched safety).items.map
        (fun it => it.unit_price * (it.quantity : ℚ))).sum := by
  have hitems : ∀ it ∈ (buildOrderPreview pid patid pname entities matched
      safety).items, ∃ z : ℤ, it.unit_price * 100 = (z : ℚ) := by
    intro it hit
    have hit' : it ∈ setPrices (buildOrderItems entities matched safety) := hit
    unfold setPrices at hit'
    obtain ⟨it0, _, rfl⟩ := List.mem_map.mp hit'
    exact priceLookup_cents it0.medicine_name
  obtain ⟨z, hz⟩ := sum_line_totals_cents _ hitems
  exact ⟨rfl, round2_eq_self _ z hz⟩

/-! ## Cancellation handler lemmas -/

theorem cancel_of_context_none (st : OrchestratorState) (s : String)
    (h : dget st.session_contexts s = none) :
    handle_order_cancellation st s = (st, cancellationMessage) := by
  unfold handle_order_cancellation
  simp [h, dmem]

theorem cancel_context_none (st : OrchestratorState) (s : String) :
    dget (handle_order_cancellation st s).1.session_contexts s = none := by
  unfold handle_order_cancellation
  cases h : dget st.session_contexts s with
  | none => simp [h, dmem]
  | some pid =>
    simp only [h]
    split_ifs <;> simp_all [dmem, dget_ddel_self]

/-- C7 (amended: the handler is idempotent and never errors, but it
always returns the same fixed cancellation message; it does not return
a distinct "nothing to cancel" outcome when no preview is pending).
With a pending preview the handler discards the preview and the session
pointer; with no session pointer it changes no state. -/
theorem c7_cancellation_idempotent :
    (∀ (st : OrchestratorState) (s : String),
      (handle_order_cancellation st s).2 = cancellationMessage) ∧
    (∀ (st : OrchestratorState) (s : String),
      handle_order_cancellation (handle_order_cancellation st s).1 s =
        ((handle_order_cancellation st s).1, cancellationMessage)) ∧
    (∀ (st : OrchestratorState) (s : String) (pid : String),
      dget st.session_contexts s = some pid → pid ≠ "" →
      dmem st.pending_previews pid = true →
        dget (handle_order_cancellation st s).1.pending_previews pid = none ∧
        dget (handle_order_cancellation st s).1.session_contexts s = none) ∧
    (∀ (st : OrchestratorState) (s : String),
      dget st.session_contexts s = none → (handle_order_cancellation st s).1 = st) := by
  refine ⟨?_, ?_, ?_, ?_⟩
  · intro st s
    unfold handle_order_cancellation
    rfl
  · intro st s
    exact cancel_of_context_none _ s (cancel_context_none st s)
  · intro st s pid h hne hmem
    have hne' : (pid != "") = true := by simpa using hne
    unfold handle_order_cancellation
    simp only [h, hne', hmem]
    split_ifs <;> simp_all [dmem, dget_ddel_self]
  · intro st s h
    rw [cancel_of_context_none st s h]

/-- C7 witness: the discard clause applied to a concrete state holding
one pending preview. -/
theorem c7_witness :
    dget (storePreview emptyOrchestratorState "s1"
        (samplePreview "PRV-1")).session_contexts "s1" = some "PRV-1" ∧
    ("PRV-1" : String) ≠ "" ∧
    dmem (storePreview emptyOrchestratorState "s1"
        (samplePreview "PRV-1")).pending_previews "PRV-1" = true ∧
    (dget (handle_order_cancellation (storePreview emptyOrchestratorState "s1"
        (samplePreview "PRV-1")) "s1").1.pending_previews "PRV-1" = none ∧
     dget (handle_order_cancellation (storePreview emptyOrchestratorState "s1"
        (samplePreview "PRV-1")) "s1").1.session_contexts "s1" = none) :=
  ⟨by decide, by decide, by decide,
   c7_cancellation_idempotent.2.2.1
     (storePreview emptyOrchestratorState "s1" (samplePreview "PRV-1")) "s1" "PRV-1"
     (by decide) (by decide) (by decide)⟩

/-- C7 counterexample: cancelling with no pending preview returns the
very same fixed "Your order has been cancelled" message as cancelling
with one pending; the handler never informs the user that there is
nothing to cancel. -/
theorem c7_counterexample :
    dget emptyOrchestratorState.session_contexts "s1" = none ∧
    (handle_order_cancellation emptyOrchestratorState "s1").2 =
      "Your order has been cancelled. Is there anything else I can help you with?" ∧
    (handle_order_cancellation emptyOrchestratorState "s1").2 =
      (handle_order_cancellation (storePreview emptyOrchestratorState "s1"
        (samplePreview "PRV-1")) "s1").2 := by
  exact ⟨rfl, rfl, rfl⟩

/-- C8 (amended: the recorded reason string is "Deterministic
calculation", capitalized). Every history entry carrying a purchase
date yields exactly one prediction with days_remaining clamped at 0,
action REMIND exactly when at most 5 days remain and NONE otherwise,
confidence 1.0; entries without a purchase date are skipped; the
calculation is per-entry; and 30 days of supply purchased 25 days ago
gives 5 days remaining and REMIND. -/
theorem c8_fallback_calculation :
    (∀ (now : Int) (rec : MedicationRecord) (pd : Int),
      rec.purchase_date = some pd →
        (fallback_calculation now [rec]).length = 1 ∧
        ∀ p ∈ fallback_calculation now [rec],
          p.days_remaining = max 0 ((rec.supply_days.getD 30 : Int) - (now - pd)) ∧
          (p.action = "REMIND" ↔ p.days_remaining ≤ 5) ∧
          (p.action = "NONE" ↔ ¬(p.days_remaining ≤ 5)) ∧
          p.confidence = 1 ∧ p.reason = "Deterministic calculation") ∧
    (∀ (now : Int) (rec : MedicationRecord),
      rec.purchase_date = none → fallback_calculation now [rec] = []) ∧
    (∀ (now : Int) (rec : MedicationRecord) (history : List MedicationRecord),
      fallback_calculation now (rec :: history) =
        fallback_calculation now [rec] ++ fallback_calculation now history) ∧
    (fallback_calculation 25
        [{ medicine_name := some "X", supply_days := some 30, purchase_date := some 0 }] =
      [{ medicine := "X", days_remaining := 5, action := "REMIND", confidence := 1,
         reason := "Deterministic calculation" }]) := by
  refine ⟨?_, ?_, ?_, rfl⟩
  · intro now rec pd h
    constructor
    · simp [fallback_calculation, h]
    · intro p hp
      simp only [fallback_calculation, List.filterMap_cons, List.filterMap_nil, h] at hp
      simp only [List.mem_singleton] at hp
      subst hp
      refine ⟨rfl, ?_, ?_, rfl, rfl⟩ <;>
        by_cases hle : max 0 ((rec.supply_days.getD 30 : Int) - (now - pd)) ≤ 5 <;>
          simp [hle]
  · intro now rec h
    simp [fallback_calculation, h]
  · intro now rec history
    unfold fallback_calculation
    cases h : rec.purchase_date <;> simp [h]

/-- C8 witness: the per-entry characterization applied to the concrete
30-day supply purchased 25 days ago. -/
theorem c8_witness :
    ({ medicine_name := some "X", supply_days := some 30,
       purchase_date := some 0 } : MedicationRecord).purchase_date = some 0 ∧
    ∀ p ∈ fallback_calculation 25
        [{ medicine_name := some "X", supply_days := some 30, purchase_date := some 0 }],
      p.days_remaining = max 0 ((30 : Int) - (25 - 0)) ∧
      (p.action = "REMIND" ↔ p.days_remaining ≤ 5) :=
  ⟨rfl, fun p hp =>
    ⟨((c8_fallback_calculation.1 25
        { medicine_name := some "X", supply_days := some 30, purchase_date := some 0 }
        0 rfl).2 p hp).1,
     ((c8_fallback_calculation.1 25
        { medicine_name := some "X", supply_days := some 30, purchase_date := some 0 }
        0 rfl).2 p hp).2.1⟩⟩

/-- C8 counterexample: the recorded reason string is "Deterministic
calculation", not "deterministic calculation" as the claim quotes. -/
theorem c8_counterexample :
    (fallback_calculation 25
        [{ medicine_name := some "X", supply_days := some 30,
           purchase_date := some 0 }]).map (fun p => p.reason) =
      ["Deterministic calculation"] ∧
    ("Deterministic calculation" : String) ≠ "deterministic calculation" := by
  exact ⟨rfl, by decide⟩

/-- C2: the order driven through the confirmation handler records
PENDING, VALIDATED, CONFIRMED and PROCESSING as distinct ordered status
events, with the inventory update recorded as a side event carrying no
status, ends at status PROCESSING, and its status event sequence is
strictly forward with no CANCELLED entry. -/
theorem c2_confirmation_lifecycle (oid pid pname : String) (items : List OrderItem) :
    ((confirmed_order oid pid pname items).events.filterMap (fun ev => ev.status) =
      [OrderStatus.PENDING, OrderStatus.VALIDATED, OrderStatus.CONFIRMED,
       OrderStatus.PROCESSING]) ∧
    List.Chain' (fun a b => statusRank a < statusRank b)
      ((confirmed_order oid pid pname items).events.filterMap (fun ev => ev.status)) ∧
    ({ status := none,
       note := "Inventory updated: " ++
         toString ((items.map (fun it => it.quantity)).sum) ++ " units" } : OrderEvent) ∈
      (confirmed_order oid pid pname items).events ∧
    (confirmed_order oid pid pname items).status = OrderStatus.PROCESSING ∧
    OrderStatus.CANCELLED ∉
      (confirmed_order oid pid pname items).events.filterMap (fun ev => ev.status) := by
  have hev : (confirmed_order oid pid pname items).events =
      [{ status := some OrderStatus.PENDING, note := "Order created" },
       { status := none, note := "Safety validation recorded" },
       { status := some OrderStatus.VALIDATED, note := "Safety validation completed" },
       { status := none, note := "Order confirmation recorded" },
       { status := some OrderStatus.CONFIRMED, note := "Order confirmed by patient" },
       { status := none,
         note := "Inventory updated: " ++
           toString ((items.map (fun it => it.quantity)).sum) ++ " units" },
       { status := none, note := "Fulfillment initiated" },
       { status := some OrderStatus.PROCESSING,
         note := "Order is being processed for delivery" }] := rfl
  have hstat : (confirmed_order oid pid pname items).events.filterMap
      (fun ev => ev.status) =
      [OrderStatus.PENDING, OrderStatus.VALIDATED, OrderStatus.CONFIRMED,
       OrderStatus.PROCESSING] := by
    rw [hev]
    rfl
  refine ⟨hstat, ?_, ?_, rfl, ?_⟩
  · rw [hstat]
    simp [List.chain'_cons, statusRank]
  · rw [hev]; simp
  · rw [hstat]; decide

/-! ## Hand-off loop step lemmas -/

theorem chatLoop_next_none (decisions : Nat → AgentDecision) (fuel k : Nat)
    (c : AgentDecision) (data : List (String × String)) (r : String)
    (h : nextAgentName c.next_agent = none) :
    chatLoop decisions (fuel + 1) k c data r = some (postLoop data r) := by
  simp [chatLoop, h]

theorem chatLoop_unrecognized (decisions : Nat → AgentDecision) (fuel k : Nat)
    (c : AgentDecision) (data : List (String × String)) (r : String) (name : String)
    (h : nextAgentName c.next_agent = some name)
    (h1 : name ≠ "InventoryAgent") (h2 : name ≠ "PolicyAgent")
    (h3 : name ≠ "RefillPredictionAgent") (h4 : name ≠ "FulfillmentAgent") :
    chatLoop decisions (fuel + 1) k c data r = some (postLoop data r) := by
  have b1 : (name == "InventoryAgent") = false := beq_eq_false_iff_ne.mpr h1
  have b2 : (name == "PolicyAgent") = false := beq_eq_false_iff_ne.mpr h2
  have b3 : (name == "RefillPredictionAgent") = false := beq_eq_false_iff_ne.mpr h3
  have b4 : (name == "FulfillmentAgent") = false := beq_eq_false_iff_ne.mpr h4
  simp [chatLoop, h, b1, b2, b3, b4]

theorem chatLoop_refill (decisions : Nat → AgentDecision) (fuel k : Nat)
    (c : AgentDecision) (data : List (String × String)) (r : String)
    (h : nextAgentName c.next_agent = some "RefillPredictionAgent") :
    chatLoop decisions (fuel + 1) k c data r =
      some (ChatOutcome.refillStatus
        (pyStrOr (decisions k).message (decisions k).reason)) := by
  simp [chatLoop, h]

theorem chatLoop_fulfillment (decisions : Nat → AgentDecision) (fuel k : Nat)
    (c : AgentDecision) (data : List (String × String)) (r : String)
    (h : nextAgentName c.next_agent = some "FulfillmentAgent") :
    chatLoop decisions (fuel + 1) k c data r =
      some (ChatOutcome.orderPlaced (qty_fulfillment_branch data)) := by
  simp [chatLoop, h]

theorem chatLoop_inventory_error (decisions : Nat → AgentDecision) (fuel k : Nat)
    (c : AgentDecision) (data : List (String × String)) (r : String)
    (h : nextAgentName c.next_agent = some "InventoryAgent")
    (hq : qty_inventory_policy_branch data = none) :
    chatLoop decisions (fuel + 1) k c data r = some ChatOutcome.qtyValueError := by
  simp [chatLoop, h, hq]

theorem chatLoop_inventory_rejected (decisions : Nat → AgentDecision) (fuel k : Nat)
    (c : AgentDecision) (data : List (String × String)) (r : String) (q : Int)
    (h : nextAgentName c.next_agent = some "InventoryAgent")
    (hq : qty_inventory_policy_branch data = some q)
    (hr : (decisions k).decision = "REJECTED") :
    chatLoop decisions (fuel + 1) k c data r =
      some (ChatOutcome.inventoryRejected (decisions k).reason) := by
  simp [chatLoop, h, hq, hr]

theorem chatLoop_inventory_step (decisions : Nat → AgentDecision) (fuel k : Nat)
    (c : AgentDecision) (data : List (String × String)) (r : String) (q : Int)
    (h : nextAgentName c.next_agent = some "InventoryAgent")
    (hq : qty_inventory_policy_branch data = some q)
    (hr : (decisions k).decision ≠ "REJECTED") :
    chatLoop decisions (fuel + 1) k c data r =
      chatLoop decisions fuel (k + 1) (decisions k)
        (dupdate data (parse_evidence (decisions k).evidence)) r := by
  have hb : ((decisions k).decision == "REJECTED") = false := beq_eq_false_iff_ne.mpr hr
  simp [chatLoop, h, hq, hb]

theorem chatLoop_policy_rejected (decisions : Nat → AgentDecision) (fuel k : Nat)
    (c : AgentDecision) (data : List (String × String)) (r : String) (q : Int)
    (h : nextAgentName c.next_agent = some "PolicyAgent")
    (hq : qty_inventory_policy_branch data = some q)
    (hr : (decisions k).decision = "REJECTED") :
    chatLoop decisions (fuel + 1) k c data r =
      some (ChatOutcome.policyRejected (decisions k).reason) := by
  simp [chatLoop, h, hq, hr]

theorem chatLoop_policy_step (decisions : Nat → AgentDecision) (fuel k : Nat)
    (c : AgentDecision) (data : List (String × String)) (r : String) (q : Int)
    (h : nextAgentName c.next_agent = some "PolicyAgent")
    (hq : qty_inventory_policy_branch data = some q)
    (hr : (decisions k).decision ≠ "REJECTED") :
    chatLoop decisions (fuel + 1) k c data r =
      chatLoop decisions fuel (k + 1) (decisions k) data r := by
  have hb : ((decisions k).decision == "REJECTED") = false := beq_eq_false_iff_ne.mpr hr
  simp [chatLoop, h, hq, hb]

/-- On the ping-pong decision stream, no amount of fuel makes the
dispatch loop return: each hop merely passes control between the
inventory and policy collaborators. -/
theorem pingpong_no_fuel (fuel : Nat) :
    ∀ (k : Nat) (c : AgentDecision) (r : String),
      c.decision = "APPROVED" →
      c.next_agent = some (if k % 2 == 0 then "InventoryAgent" else "PolicyAgent") →
      chatLoop pingpongDecision fuel k c [] r = none := by
  induction fuel with
  | zero => intro k c r _ _; rfl
  | succ n ih =>
    intro k c r hdec hnext
    have hq : qty_inventory_policy_branch ([] : List (String × String)) = some 30 := rfl
    have hnr : (pingpongDecision k).decision ≠ "REJECTED" := by
      simp [pingpongDecision]
    rcases Nat.mod_two_eq_zero_or_one k with hk | hk
    · have hnext' : nextAgentName c.next_agent = some "InventoryAgent" := by
        rw [hnext, hk]
        rfl
      rw [chatLoop_inventory_step pingpongDecision n k c [] r 30 hnext' hq hnr]
      have hdata : dupdate [] (parse_evidence (pingpongDecision k).evidence) = [] := rfl
      rw [hdata]
      apply ih (k + 1) (pingpongDecision k) r rfl
      have hk1 : (k + 1) % 2 = 1 := by omega
      simp [pingpongDecision, hk, hk1]
    · have hnext' : nextAgentName c.next_agent = some "PolicyAgent" := by
        rw [hnext, hk]
        rfl
      rw [chatLoop_policy_step pingpongDecision n k c [] r 30 hnext' hq hnr]
      apply ih (k + 1) (pingpongDecision k) r rfl
      have hk1 : (k + 1) % 2 = 0 := by omega
      simp [pingpongDecision, hk, hk1]

/-- C9 (amended: the chain is strictly sequential, consuming one
collaborator decision per hop, and terminates whenever a hop returns
REJECTED, dispatch reaches the refill or fulfillment collaborator, or
next_agent is empty or unrecognized; there is no guard bounding the
number of hops, so termination is not guaranteed for every decision
stream). -/
theorem c9_handoff_chain_termination :
    (∀ (decisions : Nat → AgentDecision) (fuel k : Nat) (c : AgentDecision)
        (data : List (String × String)) (r : String),
      nextAgentName c.next_agent = none →
        chatLoop decisions (fuel + 1) k c data r = some (postLoop data r)) ∧
    (∀ (decisions : Nat → AgentDecision) (fuel k : Nat) (c : AgentDecision)
        (data : List (String × String)) (r name : String),
      nextAgentName c.next_agent = some name →
      name ≠ "InventoryAgent" → name ≠ "PolicyAgent" →
      name ≠ "RefillPredictionAgent" → name ≠ "FulfillmentAgent" →
        chatLoop decisions (fuel + 1) k c data r = some (postLoop data r)) ∧
    (∀ (decisions : Nat → AgentDecision) (fuel k : Nat) (c : AgentDecision)
        (data : List (String × String)) (r : String),
      nextAgentName c.next_agent = some "RefillPredictionAgent" →
        chatLoop decisions (fuel + 1) k c data r =
          some (ChatOutcome.refillStatus
            (pyStrOr (decisions k).message (decisions k).reason))) ∧
    (∀ (decisions : Nat → AgentDecision) (fuel k : Nat) (c : AgentDecision)
        (data : List (String × String)) (r : String),
      nextAgentName c.next_agent = some "FulfillmentAgent" →
        chatLoop decisions (fuel + 1) k c data r =
          some (ChatOutcome.orderPlaced (qty_fulfillment_branch data))) ∧
    (∀ (decisions : Nat → AgentDecision) (fuel k : Nat) (c : AgentDecision)
        (data : List (String × String)) (r : String) (q : Int),
      nextAgentName c.next_agent = some "InventoryAgent" →
      qty_inventory_policy_branch data = some q →
      (decisions k).decision = "REJECTED" →
        chatLoop decisions (fuel + 1) k c data r =
          some (ChatOutcome.inventoryRejected (decisions k).reason)) ∧
    (∀ (decisions : Nat → AgentDecision) (fuel k : Nat) (c : AgentDecision)
        (data : List (String × String)) (r : String) (q : Int),
      nextAgentName c.next_agent = some "InventoryAgent" →
      qty_inventory_policy_branch data = some q →
      (decisions k).decision ≠ "REJECTED" →
        chatLoop decisions (fuel + 1) k c data r =
          chatLoop decisions fuel (k + 1) (decisions k)
            (dupdate data (parse_evidence (decisions k).evidence)) r) ∧
    (∀ (decisions : Nat → AgentDecision) (fuel k : Nat) (c : AgentDecision)
        (data : List (String × String)) (r : String) (q : Int),
      nextAgentName c.next_agent = some "PolicyAgent" →
      qty_inventory_policy_branch data = some q →
      (decisions k).decision ≠ "REJECTED" →
        chatLoop decisions (fuel + 1) k c data r =
          chatLoop decisions fuel (k + 1) (decisions k) data r) :=
  ⟨chatLoop_next_none,
   chatLoop_unrecognized,
   chatLoop_refill,
   chatLoop_fulfillment,
   fun decisions fuel k c data r q h hq hr =>
     chatLoop_inventory_rejected decisions fuel k c data r q h hq hr,
   fun decisions fuel k c data r q h hq hr =>
     chatLoop_inventory_step decisions fuel k c data r q h hq hr,
   fun decisions fuel k c data r q h hq hr =>
     chatLoop_policy_step decisions fuel k c data r q h hq hr⟩

/-- C9 witness: the empty-next-agent terminal case applied to a
concrete decision. -/
theorem c9_witness :
    nextAgentName (none : Option String) = none ∧
    chatLoop pingpongDecision 1 0
      { agent := "PharmacistAgent", decision := "APPROVED", reason := "ok",
        message := none, evidence := [], next_agent := none } [] "ok" =
      some (postLoop [] "ok") :=
  ⟨rfl,
   c9_handoff_chain_termination.1 pingpongDecision 0 0
     { agent := "PharmacistAgent", decision := "APPROVED", reason := "ok",
       message := none, evidence := [], next_agent := none } [] "ok" rfl⟩

/-- C9 counterexample: on the decision stream in which the inventory
and policy collaborators keep naming each other as next_agent, the
dispatch loop of `main.chat` never terminates: no fuel bound makes it
return. -/
theorem c9_counterexample : ¬ chatTerminates pingpongDecision pingpongStart := by
  rintro ⟨fuel, h⟩
  have hpipe : chat_pipeline pingpongDecision fuel pingpongStart =
      chatLoop pingpongDecision fuel 0 pingpongStart [] "ok" := rfl
  rw [hpipe, pingpong_no_fuel fuel 0 pingpongStart "ok" rfl rfl] at h
  simp at h

/-- C10 (amended: every occurrence of "x" is removed, not only a
trailing one; the tolerant non-numeric fallback exists only on the
FulfillmentAgent branch, which defaults to 1; the InventoryAgent and
PolicyAgent branches default to 30 only when the quantity key is
absent and raise ValueError on a non-numeric value). -/
theorem c10_quantity_parsing :
    (∀ data : List (String × String), dmem data "quantity" = false →
      qty_inventory_policy_branch data = some 30) ∧
    (∀ data : List (String × String), dmem data "quantity" = false →
      qty_fulfillment_branch data = 1) ∧
    (qty_inventory_policy_branch [("quantity", "30x")] = some 30) ∧
    (qty_inventory_policy_branch [("quantity", "x3x0x")] = some 30) ∧
    (qty_fulfillment_branch [("quantity", " 30x ")] = 30) ∧
    (qty_fulfillment_branch [("quantity", "two")] = 1) ∧
    (qty_inventory_policy_branch [("quantity", "two")] = none) := by
  refine ⟨?_, ?_, rfl, rfl, rfl, rfl, rfl⟩
  · intro data h
    simp [qty_inventory_policy_branch, h]
  · intro data h
    have hget : dget data "quantity" = none := by
      simpa [dmem, Option.isSome_iff_exists] using h
    unfold qty_fulfillment_branch
    rw [hget]
    rfl

/-- C10 witness: the absent-key defaults applied to the empty evidence
map. -/
theorem c10_witness :
    dmem ([] : List (String × String)) "quantity" = false ∧
    qty_inventory_policy_branch [] = some 30 ∧
    qty_fulfillment_branch [] = 1 :=
  ⟨rfl, c10_quantity_parsing.1 [] rfl, c10_quantity_parsing.2.1 [] rfl⟩

/-- C10 counterexample: a non-numeric quantity on the InventoryAgent
dispatch branch raises ValueError (surfacing as the endpoint error)
instead of falling back to a policy default. -/
theorem c10_counterexample :
    qty_inventory_policy_branch [("quantity", "two")] = none ∧
    chatLoop (fun _ => pingpongStart) 1 0 pingpongStart
      [("quantity", "two")] "r" = some ChatOutcome.qtyValueError := by
  exact ⟨rfl, rfl⟩

end Pharma
